import Mathlib

/-!
Shallow embedding of the recipe/ingredient catalog service (tma-assessment):
the catalog data model (`recipe_management/models.py`), the reference
resolver (`recipe_management/utils.py`), the serializer validation layer
(`recipe_management/serializers.py`), the GraphQL mutations
(`recipe_management/schema.py`) and the request gateway
(`recipe_management/views.py`).

Modelling conventions:
* Mutations take the catalog store explicitly and return `Except PyErr
  (Store × result)`: an `Except.error` outcome models a raised exception,
  and by construction leaves the store untouched (a mutation either fully
  succeeds or has no effect, matching the propagation policy).
* Python exceptions are modelled by `PyErr`: `graphql` for `GraphQLError`,
  `validation` for a Django REST framework `ValidationError` carrying its
  list of message details, `unboundLocal` for `UnboundLocalError`.
* Relay's `from_global_id` (external `graphql_relay` library) base64-decodes
  and then partitions on the first colon. Base64 is a bijection between
  encoded ids and payloads, so global ids are represented here by their
  decoded payload and the codec is the colon partition alone.
-/

namespace RecipeMgmt

/-- An `Ingredient` row (`models.py`): integer primary key and a name. -/
structure Ingredient where
  id : Int
  name : String
  deriving DecidableEq, Repr

/-- A `Recipe` row (`models.py`): integer primary key and a title. -/
structure Recipe where
  id : Int
  title : String
  deriving DecidableEq, Repr

/-- The catalog store: the two tables plus the many-to-many association
rows `(recipe id, ingredient id)` of `Recipe.ingredients`. -/
structure Store where
  ingredients : List Ingredient
  recipes : List Recipe
  assoc : List (Int × Int)
  deriving DecidableEq, Repr

/-- A raised Python exception, as distinguished by the code paths:
`GraphQLError(msg)`, a DRF `ValidationError` with its message details,
or an `UnboundLocalError` on the named variable. -/
inductive PyErr where
  | graphql (msg : String)
  | validation (msgs : List String)
  | unboundLocal (v : String)
  deriving DecidableEq, Repr

/-- A model instance returned by the resolver: an `Ingredient` or a
`Recipe` object. -/
inductive ModelInstance where
  | ofIngredient (i : Ingredient)
  | ofRecipe (r : Recipe)
  deriving DecidableEq, Repr

/-- Split a character list at the first colon, Python
`str.partition(":")` style: with no colon the whole input is the first
component and the second is empty. -/
def splitColon : List Char → List Char × List Char
  | [] => ([], [])
  | c :: cs =>
    if c = ':' then ([], cs)
    else
      let p := splitColon cs
      (c :: p.1, p.2)

/-- `graphql_relay.from_global_id`: partition the (already base64-decoded)
payload on the first colon into `(type-tag, local id)`. A payload with no
colon yields an empty local id, exactly as Python's `partition`. -/
def from_global_id (s : String) : String × String :=
  let p := splitColon s.data
  (String.mk p.1, String.mk p.2)

/-- Accumulate decimal digits; `none` when a non-digit appears. -/
def parseDigitsAux : List Char → Nat → Option Nat
  | [], acc => some acc
  | c :: cs, acc =>
    if c.isDigit then parseDigitsAux cs (acc * 10 + (c.toNat - 48))
    else none

/-- Python `int(s)` on a string, as used by the store's integer
primary-key conversion: an optional sign followed by at least one digit;
anything else raises `ValueError`. -/
def pyInt (s : String) : Except String Int :=
  let err : Except String Int :=
    Except.error ("invalid literal for int() with base 10: " ++ s)
  match s.data with
  | [] => err
  | '-' :: cs =>
    match cs, parseDigitsAux cs 0 with
    | _ :: _, some n => Except.ok (-(n : Int))
    | _, _ => err
  | '+' :: cs =>
    match cs, parseDigitsAux cs 0 with
    | _ :: _, some n => Except.ok (n : Int)
    | _, _ => err
  | cs =>
    match parseDigitsAux cs 0 with
    | some n => Except.ok (n : Int)
    | none => err

/-- `Ingredient.objects.filter(pk=..).first()`. -/
def Store.findIngredient (s : Store) (pk : Int) : Option Ingredient :=
  s.ingredients.find? (fun i => i.id == pk)

/-- `Recipe.objects.filter(pk=..).first()`. -/
def Store.findRecipe (s : Store) (pk : Int) : Option Recipe :=
  s.recipes.find? (fun r => r.id == pk)

/-- `utils.get_internal_id_from_global_id`: decode the global id, reject an
empty local id, reject a type-tag different from `expected_type`, then look
the record up by primary key (the store's integer conversion of the local
id raises `ValueError` on a non-integer, re-surfaced as a `GraphQLError` by
the function's blanket `except` clause). -/
def get_internal_id_from_global_id (store : Store) (global_id : String)
    (expected_type : String) (label : String) :
    Except PyErr (ModelInstance × Int) :=
  let t := (from_global_id global_id).1
  let internal_id := (from_global_id global_id).2
  if internal_id = "" then
    Except.error (.graphql (label ++ " is invalid."))
  else if t ≠ expected_type then
    Except.error (.graphql ("Invalid node type for " ++ label ++
      ". Expected '" ++ expected_type ++ "', got '" ++ t ++ "'."))
  else if t = "IngredientType" then
    match pyInt internal_id with
    | Except.error m => Except.error (.graphql m)
    | Except.ok pk =>
      match store.findIngredient pk with
      | none => Except.error (.graphql (label ++ " not found."))
      | some ing => Except.ok (.ofIngredient ing, pk)
  else
    match pyInt internal_id with
    | Except.error m => Except.error (.graphql m)
    | Except.ok pk =>
      match store.findRecipe pk with
      | none => Except.error (.graphql (label ++ " not found."))
      | some r => Except.ok (.ofRecipe r, pk)

/-- Modelled from the spec: `NUMBER_TRACKER` lives in
`recipe_management/constants.py`, which is not among the provided source
files; per the spec it is the fixed named set of ordinal labels ("First",
"Second", … ) indexed by 1-based position, with the caller falling back to
`f"{i}th"` beyond it. -/
def NUMBER_TRACKER : Nat → Option String
  | 1 => some "First"
  | 2 => some "Second"
  | 3 => some "Third"
  | 4 => some "Fourth"
  | 5 => some "Fifth"
  | 6 => some "Sixth"
  | 7 => some "Seventh"
  | 8 => some "Eighth"
  | 9 => some "Ninth"
  | 10 => some "Tenth"
  | _ => none

/-- `NUMBER_TRACKER.get(i, f"{i}th")`. -/
def positionLabel (i : Nat) : String :=
  (NUMBER_TRACKER i).getD (toString i ++ "th")

/-- The loop body of `utils.decode_global_ids_with_labels`: `i` is the
1-based position of the next element, `acc` the internal ids gathered so
far, `lastInst` the loop variable `ingredient` (`none` before the first
iteration — returning with `none` is Python's `UnboundLocalError`). -/
def decodeGo (store : Store) (expected_type tracker_label : String) :
    List String → Nat → List Int → Option ModelInstance →
    Except PyErr (ModelInstance × List Int)
  | [], _, _, none => Except.error (.unboundLocal "ingredient")
  | [], _, acc, some inst => Except.ok (inst, acc)
  | gid :: rest, i, acc, _ =>
    match get_internal_id_from_global_id store gid expected_type
        (positionLabel i ++ " " ++ tracker_label) with
    | Except.error e => Except.error e
    | Except.ok (inst, pk) =>
      decodeGo store expected_type tracker_label rest (i + 1)
        (acc ++ [pk]) (some inst)

/-- `utils.decode_global_ids_with_labels`: resolve each global id in input
order with a positional label, propagating the first failure; after the
loop it returns the loop variable `ingredient`, which is unbound when the
input list was empty. -/
def decode_global_ids_with_labels (store : Store) (global_ids : List String)
    (expected_type tracker_label : String) :
    Except PyErr (ModelInstance × List Int) :=
  decodeGo store expected_type tracker_label global_ids 1 [] none

/-- `serializers.validate_string_field`, returning the first failing rule's
message: at least 2 characters, not only digits (`str.isdigit`), not only
special characters (`re.fullmatch` of one or more non-word non-space
characters). `none` means the value passes. -/
def validate_string_field (value : String) : Option String :=
  if value.length < 2 then some "Must be at least 2 characters long."
  else if value ≠ "" ∧ value.data.all Char.isDigit then
    some "Must not be only numbers."
  else if value ≠ "" ∧ value.data.all
      (fun c => ¬(c.isAlphanum ∨ c = '_') ∧ ¬c.isWhitespace) then
    some "Must not be only special characters."
  else none

/-- DRF `UniqueValidator` on `Ingredient.name`: a case-sensitive exact
filter over all ingredient rows, excluding (on update) the serializer's own
instance by primary key. -/
def ingredientNameTaken (store : Store) (excludePk : Option Int)
    (value : String) : Bool :=
  store.ingredients.any (fun i => i.name == value && !(excludePk == some i.id))

/-- DRF `UniqueValidator` on `Recipe.title`, same shape. -/
def recipeTitleTaken (store : Store) (excludePk : Option Int)
    (value : String) : Bool :=
  store.recipes.any (fun r => r.title == value && !(excludePk == some r.id))

/-- The `name` field's validator run in `IngredientSerializer`: DRF runs the
declared validators in order and collects every failure message. -/
def ingredientNameErrors (store : Store) (excludePk : Option Int)
    (value : String) : List String :=
  (match validate_string_field value with
   | some m => [m]
   | none => []) ++
  (if ingredientNameTaken store excludePk value then
    ["Ingredient with this name already exists."]
   else [])

/-- The `title` field's validator run in `RecipeSerializer`. -/
def recipeTitleErrors (store : Store) (excludePk : Option Int)
    (value : String) : List String :=
  (match validate_string_field value with
   | some m => [m]
   | none => []) ++
  (if recipeTitleTaken store excludePk value then
    ["Recipe with this name already exists."]
   else [])

/-- `RecipeSerializer.ingredients` (`PrimaryKeyRelatedField`, many):
every supplied primary key must name an existing ingredient row. -/
def ingredientPkErrors (store : Store) (pks : List Int) : List String :=
  pks.filterMap (fun pk =>
    if (store.findIngredient pk).isSome then none
    else some ("Invalid pk \"" ++ toString pk ++ "\" - object does not exist."))

/-- Fresh auto-increment primary key for a new row. -/
def freshId (ids : List Int) : Int := ids.foldl max 0 + 1

/-- Django `recipe.ingredients.set(pks)`: replace the recipe's association
rows by one row per distinct supplied ingredient key. -/
def setRecipeIngredients (store : Store) (rid : Int) (pks : List Int) :
    Store :=
  { store with assoc :=
      store.assoc.filter (fun p => p.1 != rid) ++
        (pks.eraseDups.map (fun pk => (rid, pk))) }

/-- Python `str(e)` of a caught exception, as used by the mutations'
blanket `except Exception as e: raise GraphQLError(str(e))` clauses (DRF's
exact `ErrorDetail` repr formatting is elided to the joined messages). -/
def errString : PyErr → String
  | .graphql m => m
  | .validation msgs => String.intercalate "; " msgs
  | .unboundLocal v =>
    "local variable '" ++ v ++ "' referenced before assignment"

/-- Re-raise any caught exception as a `GraphQLError` with its string. -/
def wrapGraphQL (e : PyErr) : PyErr := .graphql (errString e)

/-- `CreateIngredient.mutate`: serializer validation (`raise_exception`)
then save; no surrounding `except`, so a `ValidationError` propagates. -/
def CreateIngredient_mutate (store : Store) (name : String) :
    Except PyErr (Store × Ingredient) :=
  let msgs := ingredientNameErrors store none name
  if msgs ≠ [] then Except.error (.validation msgs)
  else
    let pk := freshId (store.ingredients.map (fun i => i.id))
    let ing : Ingredient := ⟨pk, name⟩
    Except.ok ({ store with ingredients := store.ingredients ++ [ing] }, ing)

/-- Write the new name onto the row with primary key `pk`
(`super().update` setting the instance attribute and saving). -/
def renameIngredient (rows : List Ingredient) (pk : Int) (name : String) :
    List Ingredient :=
  rows.map (fun i => if i.id == pk then { i with name := name } else i)

/-- `UpdateIngredient.mutate`: resolve the global id as an ingredient, run
the serializer's field validation (which precedes `save`), then
`IngredientSerializer.update`, which rejects an ingredient carrying any
recipe association before writing the new name. -/
def UpdateIngredient_mutate (store : Store) (gid : String) (name : String) :
    Except PyErr (Store × Ingredient) :=
  match get_internal_id_from_global_id store gid "IngredientType"
      "Ingredient ID" with
  | Except.error e => Except.error e
  | Except.ok (_, pk) =>
    let msgs := ingredientNameErrors store (some pk) name
    if msgs ≠ [] then Except.error (.validation msgs)
    else if store.assoc.any (fun p => p.2 == pk) then
      Except.error (.validation
        ["This ingredient is associated with a recipe and cannot be updated."])
    else
      Except.ok
        ({ store with ingredients := renameIngredient store.ingredients pk name },
         ⟨pk, name⟩)

/-- `DeleteIngredient.mutate`: resolve the global id, then
`ingredient.delete()` — Django removes the row and cascades over the
many-to-many through rows only; recipe rows are untouched. -/
def DeleteIngredient_mutate (store : Store) (gid : String) :
    Except PyErr (Store × Bool) :=
  match get_internal_id_from_global_id store gid "IngredientType"
      "Ingredient ID" with
  | Except.error e => Except.error (wrapGraphQL e)
  | Except.ok (_, pk) =>
    Except.ok
      ({ store with
          ingredients := store.ingredients.filter (fun i => i.id != pk),
          assoc := store.assoc.filter (fun p => p.2 != pk) },
       true)

/-- `CreateRecipe.mutate`: reject an empty ingredient-id list, resolve all
global ids with positional labels, validate through `RecipeSerializer`,
then `create`: a new recipe row plus `ingredients.set`. Everything runs
inside `try`, so any raised exception is re-surfaced as a `GraphQLError`. -/
def CreateRecipe_mutate (store : Store) (title : String)
    (ingredient_ids : List String) : Except PyErr (Store × Recipe) :=
  if ingredient_ids = [] then
    Except.error (.graphql "Atleat one ingredient is necessary to create recipe.")
  else
    match decode_global_ids_with_labels store ingredient_ids
        "IngredientType" "Ingredient ID" with
    | Except.error e => Except.error (wrapGraphQL e)
    | Except.ok (_, pks) =>
      let msgs := recipeTitleErrors store none title ++
        ingredientPkErrors store pks
      if msgs ≠ [] then Except.error (wrapGraphQL (.validation msgs))
      else
        let rid := freshId (store.recipes.map (fun r => r.id))
        let r : Recipe := ⟨rid, title⟩
        Except.ok
          (setRecipeIngredients
            { store with recipes := store.recipes ++ [r] } rid pks, r)

/-- `AddIngredientsToRecipe.mutate`: reject an empty list, resolve the
recipe and the ingredient ids, then a partial `RecipeSerializer` update —
whose default `ModelSerializer.update` calls `recipe.ingredients.set` on
the supplied keys. The `ofIngredient` arm of the returned instance is dead
code: resolving with expected type `RecipeType` always yields a recipe. -/
def AddIngredientsToRecipe_mutate (store : Store) (recipe_id : String)
    (ingredient_ids : List String) : Except PyErr (Store × Recipe) :=
  if ingredient_ids = [] then
    Except.error (.graphql "At least one ingredient ID must be provided.")
  else
    match get_internal_id_from_global_id store recipe_id "RecipeType"
        "Recipe ID" with
    | Except.error e => Except.error (wrapGraphQL e)
    | Except.ok (inst, rid) =>
      match decode_global_ids_with_labels store ingredient_ids
          "IngredientType" "Ingredient ID" with
      | Except.error e => Except.error (wrapGraphQL e)
      | Except.ok (_, pks) =>
        let msgs := ingredientPkErrors store pks
        if msgs ≠ [] then Except.error (wrapGraphQL (.validation msgs))
        else
          let r : Recipe :=
            match inst with
            | .ofRecipe r => r
            | .ofIngredient i => ⟨rid, i.name⟩
          Except.ok (setRecipeIngredients store rid pks, r)

/-- Is `needle` a prefix of `hay` (character-wise)? -/
def listIsPrefix : List Char → List Char → Bool
  | [], _ => true
  | _ :: _, [] => false
  | p :: ps, c :: cs => p == c && listIsPrefix ps cs

/-- Python's substring test `needle in hay` on character lists. -/
def listHasInfix (pat : List Char) : List Char → Bool
  | [] => listIsPrefix pat []
  | c :: cs => listIsPrefix pat (c :: cs) || listHasInfix pat cs

/-- Python's substring test `needle in hay` on strings. -/
def containsSub (needle hay : String) : Bool :=
  listHasInfix needle.data hay.data

/-- An incoming HTTP request as the gateway inspects it
(`views.DRFAuthenticatedGraphQLView.dispatch`): the method, the Accept
header (`""` when absent), the `Authorization` header, and the request
body's `"query"` value — `some q` exactly when `json.loads` succeeds on the
body and `body.get("query", "")` yields the string `q`, `none` when the
body is invalid JSON or has no string query (the code's `except` fall-through). -/
structure GRequest where
  method : String
  httpAccept : String
  authorization : Option String
  bodyQuery : Option String
  deriving DecidableEq, Repr

/-- Outcome of the single configured authenticator
(`TokenAuthentication.authenticate`): a user tuple, an
`AuthenticationFailed` with its message, or `None`. -/
inductive AuthAttempt where
  | success
  | failed (msg : String)
  | noUser
  deriving DecidableEq, Repr

/-- Terminal outcome of the gateway: forward to the GraphQL view (with or
without an authenticated identity attached) or reject with a status and
message. -/
inductive Decision where
  | forward (authenticated : Bool)
  | reject (status : Nat) (message : String)
  deriving DecidableEq, Repr

/-- `DRFAuthenticatedGraphQLView.dispatch`: forward a GET negotiating HTML
unauthenticated; forward a POST whose parsed body query contains the
literal `IntrospectionQuery` unauthenticated; otherwise require an
`Authorization` header and run token authentication. -/
def dispatch (tokenAuth : AuthAttempt) (r : GRequest) : Decision :=
  if r.method == "GET" && containsSub "text/html" r.httpAccept then
    .forward false
  else if r.method == "POST" &&
      (match r.bodyQuery with
       | some q => containsSub "IntrospectionQuery" q
       | none => false) then
    .forward false
  else
    match r.authorization with
    | none => .reject 401 "Authentication token not provided."
    | some _ =>
      match tokenAuth with
      | .failed msg => .reject 401 msg
      | .success => .forward true
      | .noUser => .reject 401 "Invalid or expired token."

/-! ## Theorems -/

/-- C1: the gateway forwards every GET request whose Accept header includes
`text/html` without requiring any token (for every authenticator outcome and
every Authorization header), and rejects a POST request carrying no
Authorization header whose parsed query text does not contain the
introspection marker with a 401 bearing the message
"Authentication token not provided.". -/
theorem C1_gateway_get_html_forward_post_untokened_reject
    (a : AuthAttempt) (r : GRequest) :
    (r.method = "GET" → containsSub "text/html" r.httpAccept = true →
      dispatch a r = .forward false)
    ∧ (r.method = "POST" → r.authorization = none →
      (∀ q, r.bodyQuery = some q →
        containsSub "IntrospectionQuery" q = false) →
      dispatch a r = .reject 401 "Authentication token not provided.") := by
  constructor
  · intro hm hacc
    simp [dispatch, hm, hacc]
  · intro hm hauth hq
    have h2 : (match r.bodyQuery with
        | some q => containsSub "IntrospectionQuery" q
        | none => false) = false := by
      cases hb : r.bodyQuery with
      | none => rfl
      | some q => simpa using hq q hb
    simp [dispatch, hm, h2, hauth]

/-- Witness for C1: a concrete HTML-negotiating GET is forwarded with no
token anywhere, and a concrete tokenless POST with a plain mutation query
is rejected 401. -/
theorem C1_witness :
    dispatch .noUser ⟨"GET", "text/html,application/xhtml", none, none⟩ =
      .forward false
    ∧ dispatch .noUser ⟨"POST", "", none, some "mutation createX"⟩ =
      .reject 401 "Authentication token not provided." :=
  ⟨(C1_gateway_get_html_forward_post_untokened_reject .noUser
      ⟨"GET", "text/html,application/xhtml", none, none⟩).1 rfl (by decide),
   (C1_gateway_get_html_forward_post_untokened_reject .noUser
      ⟨"POST", "", none, some "mutation createX"⟩).2 rfl rfl
    (by intro q hq
        injection hq with h
        subst h
        decide)⟩

/-- C10: a POST whose body parses as JSON and whose query string contains
the substring `IntrospectionQuery` anywhere is forwarded unauthenticated for
every authenticator outcome and every Authorization header — the bypass is a
substring test evaluated before authentication, even when the query also
contains other operations or the token is invalid. -/
theorem C10_introspection_substring_bypasses_auth
    (a : AuthAttempt) (r : GRequest) (q : String)
    (hm : r.method = "POST") (hb : r.bodyQuery = some q)
    (hq : containsSub "IntrospectionQuery" q = true) :
    dispatch a r = .forward false := by
  simp [dispatch, hm, hb, hq]

/-- Witness for C10: a query mixing the introspection marker with a
mutation, carried with an invalid token, is still forwarded unauthenticated. -/
theorem C10_witness :
    dispatch (.failed "Invalid token.")
      ⟨"POST", "", some "Token deadbeef",
        some "query IntrospectionQuery mutation deleteIngredient"⟩ =
      .forward false :=
  C10_introspection_substring_bypasses_auth (.failed "Invalid token.")
    ⟨"POST", "", some "Token deadbeef",
      some "query IntrospectionQuery mutation deleteIngredient"⟩
    "query IntrospectionQuery mutation deleteIngredient" rfl rfl (by decide)

/-- C3: for every well-formed global id (non-empty decoded local id) whose
decoded type-tag differs from the expected type, the resolver fails with the
type-mismatch error — for every store, hence never with a not-found error
and independently of whether any record with that local id exists. -/
theorem C3_wrong_type_tag_is_type_mismatch (store : Store)
    (gid expected_type label : String)
    (hnz : (from_global_id gid).2 ≠ "")
    (hne : (from_global_id gid).1 ≠ expected_type) :
    get_internal_id_from_global_id store gid expected_type label =
      Except.error (.graphql ("Invalid node type for " ++ label ++
        ". Expected '" ++ expected_type ++ "', got '" ++
        (from_global_id gid).1 ++ "'.")) := by
  unfold get_internal_id_from_global_id
  simp [hnz, hne]

/-- Witness for C3: an ingredient-tagged id handed to a recipe-expecting
resolution yields the type-mismatch error on the empty store, where no
record of any local id exists. -/
theorem C3_witness :
    get_internal_id_from_global_id ⟨[], [], []⟩ "IngredientType:5"
      "RecipeType" "Recipe ID" =
      Except.error (.graphql ("Invalid node type for " ++ "Recipe ID" ++
        ". Expected '" ++ "RecipeType" ++ "', got '" ++
        (from_global_id "IngredientType:5").1 ++ "'.")) :=
  C3_wrong_type_tag_is_type_mismatch ⟨[], [], []⟩ "IngredientType:5"
    "RecipeType" "Recipe ID" (by decide) (by decide)

/-- C5 counterexample: on the empty input list
`decode_global_ids_with_labels` does not reject with any EmptyBatch-style
error — it returns the loop variable `ingredient` without ever binding it,
i.e. it raises `UnboundLocalError`. -/
theorem C5_counterexample :
    decode_global_ids_with_labels ⟨[], [], []⟩ [] "IngredientType"
      "Ingredient ID" = Except.error (.unboundLocal "ingredient") := rfl

/-- C5 (amended): the resolver itself performs no emptiness check (an empty
list trips the unbound loop variable); the non-empty-batch rejection lives
at the caller: createRecipe with an empty ingredient-id list fails with the
dedicated GraphQL error and, the mutation erroring, no recipe is created. -/
theorem C5_empty_batch_checked_by_caller (store : Store) (title : String) :
    decode_global_ids_with_labels store [] "IngredientType" "Ingredient ID" =
      Except.error (.unboundLocal "ingredient")
    ∧ CreateRecipe_mutate store title [] =
      Except.error
        (.graphql "Atleat one ingredient is necessary to create recipe.") :=
  ⟨rfl, rfl⟩

/-- C6 counterexample: a global id whose decoded local id is the non-empty
string "0" (a non-positive integer) is not rejected as an invalid
reference; the resolver proceeds to the store lookup and reports not-found. -/
theorem C6_counterexample :
    get_internal_id_from_global_id ⟨[], [], []⟩ "IngredientType:0"
      "IngredientType" "Ingredient ID" =
      Except.error (.graphql "Ingredient ID not found.")
    ∧ PyErr.graphql "Ingredient ID not found." ≠
      PyErr.graphql "Ingredient ID is invalid." :=
  ⟨rfl, by decide⟩

/-- C6 (amended): the invalid-reference rejection fires exactly on an empty
decoded local id, before any lookup; a decoded local id that is a
non-positive integer (zero or negative) passes that check and proceeds to
the store lookup, yielding not-found whenever no record carries that key. -/
theorem C6_empty_id_invalid_nonpositive_id_not_found (store : Store)
    (gid expected_type label : String) :
    ((from_global_id gid).2 = "" →
      get_internal_id_from_global_id store gid expected_type label =
        Except.error (.graphql (label ++ " is invalid.")))
    ∧ (∀ n : Int, n ≤ 0 →
        (from_global_id gid).2 ≠ "" →
        (from_global_id gid).1 = expected_type →
        expected_type = "IngredientType" →
        pyInt (from_global_id gid).2 = Except.ok n →
        store.findIngredient n = none →
        get_internal_id_from_global_id store gid expected_type label =
          Except.error (.graphql (label ++ " not found."))) := by
  constructor
  · intro h
    unfold get_internal_id_from_global_id
    simp [h]
  · intro n _ hnz hty hexp hint hfind
    unfold get_internal_id_from_global_id
    simp [hnz, hty, hexp, hint, hfind]

/-- Witness for C6 (amended): an empty local id is reported invalid, and a
negative local id on the empty store is reported not found. -/
theorem C6_witness :
    get_internal_id_from_global_id ⟨[], [], []⟩ "IngredientType:"
      "IngredientType" "Ingredient ID" =
      Except.error (.graphql ("Ingredient ID" ++ " is invalid."))
    ∧ get_internal_id_from_global_id ⟨[], [], []⟩ "IngredientType:-3"
      "IngredientType" "Ingredient ID" =
      Except.error (.graphql ("Ingredient ID" ++ " not found.")) :=
  ⟨(C6_empty_id_invalid_nonpositive_id_not_found ⟨[], [], []⟩
      "IngredientType:" "IngredientType" "Ingredient ID").1 (by decide),
   (C6_empty_id_invalid_nonpositive_id_not_found ⟨[], [], []⟩
      "IngredientType:-3" "IngredientType" "Ingredient ID").2 (-3)
     (by decide) (by decide) (by decide) rfl rfl rfl⟩

/-- The resolution loop surfaces the first failing element's error: if every
element of `pre` resolves at its positional label (offset by the starting
index `i`) and the next element fails, the loop's result is that single
error, whatever follows and whatever was accumulated. -/
theorem decodeGo_first_failure (store : Store) (et tl : String) (e : PyErr) :
    ∀ (pre : List String) (gid : String) (post : List String) (i : Nat)
      (acc : List Int) (last : Option ModelInstance),
      (∀ j (hj : j < pre.length), ∃ v,
        get_internal_id_from_global_id store (pre.get ⟨j, hj⟩) et
          (positionLabel (i + j) ++ " " ++ tl) = Except.ok v) →
      get_internal_id_from_global_id store gid et
        (positionLabel (i + pre.length) ++ " " ++ tl) = Except.error e →
      decodeGo store et tl (pre ++ gid :: post) i acc last =
        Except.error e := by
  intro pre
  induction pre with
  | nil =>
    intro gid post i acc last _ hfail
    simp only [List.nil_append]
    simp only [List.length_nil, Nat.add_zero] at hfail
    simp [decodeGo, hfail]
  | cons p ps ih =>
    intro gid post i acc last hok hfail
    obtain ⟨v, hv⟩ := hok 0 (by simp)
    simp only [List.get] at hv
    have hv' : get_internal_id_from_global_id store p et
        (positionLabel i ++ " " ++ tl) = Except.ok v := by
      simpa using hv
    simp only [List.cons_append, decodeGo, hv']
    apply ih
    · intro j hj
      obtain ⟨w, hw⟩ := hok (j + 1) (by simpa using Nat.succ_lt_succ hj)
      refine ⟨w, ?_⟩
      have hlab : i + (j + 1) = i + 1 + j := by omega
      simpa [hlab] using hw
    · have hlab : i + 1 + ps.length = i + (p :: ps).length := by
        simp only [List.length_cons]
        omega
      rw [hlab]
      exact hfail

/-- C4: `decode_global_ids_with_labels` applies the resolver to each element
in input order and stops at the first failing element, surfacing that single
error; the failing element's label is determined only by its 1-based
position (offset into `pre`), independent of what follows — and position 3
carries the label "Third". -/
theorem C4_resolve_many_fail_fast_positional_label (store : Store)
    (expected_type tracker_label : String) (pre : List String)
    (gid : String) (post : List String) (e : PyErr)
    (hok : ∀ j (hj : j < pre.length), ∃ v,
      get_internal_id_from_global_id store (pre.get ⟨j, hj⟩) expected_type
        (positionLabel (1 + j) ++ " " ++ tracker_label) = Except.ok v)
    (hfail : get_internal_id_from_global_id store gid expected_type
      (positionLabel (1 + pre.length) ++ " " ++ tracker_label) =
      Except.error e) :
    decode_global_ids_with_labels store (pre ++ gid :: post) expected_type
      tracker_label = Except.error e
    ∧ positionLabel 3 = "Third" := by
  refine ⟨?_, rfl⟩
  unfold decode_global_ids_with_labels
  exact decodeGo_first_failure store expected_type tracker_label e pre gid
    post 1 [] none hok hfail

/-- Witness for C4: in a four-element batch whose third element is
malformed, the two elements before it resolve, and the single surfaced
error is labelled "Third Ingredient ID" — the fourth element is never
reached. -/
theorem C4_witness :
    decode_global_ids_with_labels ⟨[⟨1, "Salt"⟩, ⟨2, "Pepper"⟩], [], []⟩
      ["IngredientType:1", "IngredientType:2", "garbage", "IngredientType:1"]
      "IngredientType" "Ingredient ID" =
      Except.error (.graphql ("Third Ingredient ID" ++ " is invalid."))
    ∧ positionLabel 3 = "Third" := by
  have h := C4_resolve_many_fail_fast_positional_label
    ⟨[⟨1, "Salt"⟩, ⟨2, "Pepper"⟩], [], []⟩ "IngredientType" "Ingredient ID"
    ["IngredientType:1", "IngredientType:2"] "garbage" ["IngredientType:1"]
    (.graphql ("Third Ingredient ID" ++ " is invalid."))
    (by intro j hj
        match j, hj with
        | 0, _ => exact ⟨_, rfl⟩
        | 1, _ => exact ⟨_, rfl⟩)
    rfl
  simpa using h

/-- A store with Salt (pk 1) and Pepper (pk 2), and the recipe Soup (pk 1)
associated with Salt. -/
def storeSoupSalt : Store :=
  ⟨[⟨1, "Salt"⟩, ⟨2, "Pepper"⟩], [⟨1, "Soup"⟩], [(1, 1)]⟩

/-- C2 (evaluation at the failing input): adding Pepper to the recipe that
contains Salt leaves the recipe associated with Pepper only — the partial
update's default `ModelSerializer.update` calls `ingredients.set`, so the
association set is replaced, not extended, and the previously associated
Salt `(1, 1)` is detached, contrary to the claim (and to the mutation's own
docstring "add one or more ingredients to an existing recipe"). -/
theorem C2_add_ingredients_replaces_association_set :
    AddIngredientsToRecipe_mutate storeSoupSalt "RecipeType:1"
      ["IngredientType:2"] =
      Except.ok
        (⟨[⟨1, "Salt"⟩, ⟨2, "Pepper"⟩], [⟨1, "Soup"⟩], [(1, 2)]⟩, ⟨1, "Soup"⟩)
    ∧ (1, 1) ∉
      (⟨[⟨1, "Salt"⟩, ⟨2, "Pepper"⟩], [⟨1, "Soup"⟩], [(1, 2)]⟩ : Store).assoc :=
  ⟨rfl, by decide⟩

/-- A store with the single ingredient Salt (pk 1) referenced by the recipe
Soup (pk 1). -/
def storeSaltInUse : Store := ⟨[⟨1, "Salt"⟩], [⟨1, "Soup"⟩], [(1, 1)]⟩

/-- C7 counterexample: renaming an in-use ingredient to the one-character
name "x" fails with the field-validation message, not with the dedicated
in-use error — serializer field validation runs before the in-use check, so
not every rename attempt on an in-use ingredient surfaces `IngredientInUse`. -/
theorem C7_counterexample :
    UpdateIngredient_mutate storeSaltInUse "IngredientType:1" "x" =
      Except.error (.validation ["Must be at least 2 characters long."])
    ∧ PyErr.validation ["Must be at least 2 characters long."] ≠
      PyErr.validation
        ["This ingredient is associated with a recipe and cannot be updated."] :=
  ⟨rfl, by decide⟩

/-- C7 (amended): when the new name passes field validation (text rules and
uniqueness), renaming an ingredient referenced by at least one recipe fails
with the dedicated in-use error and, the mutation erroring, the name is
unchanged; renaming an unreferenced ingredient under the same conditions
succeeds and returns the ingredient with the new name. -/
theorem C7_rename_in_use_rejected_unreferenced_renamed (store : Store)
    (gid name : String) (inst : ModelInstance) (pk : Int)
    (hres : get_internal_id_from_global_id store gid "IngredientType"
      "Ingredient ID" = Except.ok (inst, pk))
    (hvalid : ingredientNameErrors store (some pk) name = []) :
    (store.assoc.any (fun p => p.2 == pk) = true →
      UpdateIngredient_mutate store gid name =
        Except.error (.validation
          ["This ingredient is associated with a recipe and cannot be updated."]))
    ∧ (store.assoc.any (fun p => p.2 == pk) = false →
      UpdateIngredient_mutate store gid name =
        Except.ok
          ({ store with ingredients := renameIngredient store.ingredients pk name },
           ⟨pk, name⟩)) := by
  constructor
  · intro hin
    simp [UpdateIngredient_mutate, hres, hvalid, hin]
  · intro hout
    simp [UpdateIngredient_mutate, hres, hvalid, hout]

/-- Witness for C7 (amended): renaming in-use Salt to the valid unique name
"Sugar" fails with the in-use error; renaming an unreferenced Salt to
"Sugar" succeeds with the new name written. -/
theorem C7_witness :
    UpdateIngredient_mutate storeSaltInUse "IngredientType:1" "Sugar" =
      Except.error (.validation
        ["This ingredient is associated with a recipe and cannot be updated."])
    ∧ UpdateIngredient_mutate ⟨[⟨1, "Salt"⟩], [], []⟩ "IngredientType:1"
        "Sugar" =
      Except.ok (⟨[⟨1, "Sugar"⟩], [], []⟩, ⟨1, "Sugar"⟩) :=
  ⟨(C7_rename_in_use_rejected_unreferenced_renamed storeSaltInUse
      "IngredientType:1" "Sugar" (.ofIngredient ⟨1, "Salt"⟩) 1 rfl rfl).1 rfl,
   (C7_rename_in_use_rejected_unreferenced_renamed ⟨[⟨1, "Salt"⟩], [], []⟩
      "IngredientType:1" "Sugar" (.ofIngredient ⟨1, "Salt"⟩) 1 rfl rfl).2 rfl⟩

/-- C8: deleting an existing ingredient removes exactly its association
rows from every recipe while the recipe table is returned verbatim — every
recipe keeps its id, its title and its associations to other ingredients,
and no recipe is deleted. -/
theorem C8_delete_ingredient_detaches_only (store : Store) (gid : String)
    (inst : ModelInstance) (pk : Int)
    (hres : get_internal_id_from_global_id store gid "IngredientType"
      "Ingredient ID" = Except.ok (inst, pk)) :
    DeleteIngredient_mutate store gid =
      Except.ok
        ({ ingredients := store.ingredients.filter (fun i => i.id != pk),
           recipes := store.recipes,
           assoc := store.assoc.filter (fun p => p.2 != pk) }, true)
    ∧ (∀ p, p ∈ store.assoc → p.2 ≠ pk →
        p ∈ store.assoc.filter (fun q => q.2 != pk))
    ∧ (∀ p, p ∈ store.assoc.filter (fun q => q.2 != pk) → p.2 ≠ pk) := by
  refine ⟨?_, ?_, ?_⟩
  · simp [DeleteIngredient_mutate, hres]
  · intro p hp hne
    simp [List.mem_filter, hp, hne]
  · intro p hp
    have h := (List.mem_filter.mp hp).2
    simpa using h

/-- Witness for C8: deleting Salt (pk 1) from a store where Soup references
Salt and Pepper leaves Soup present with its title and its Pepper
association intact. -/
theorem C8_witness :
    DeleteIngredient_mutate
      ⟨[⟨1, "Salt"⟩, ⟨2, "Pepper"⟩], [⟨1, "Soup"⟩], [(1, 1), (1, 2)]⟩
      "IngredientType:1" =
      Except.ok
        ({ ingredients :=
            ([⟨1, "Salt"⟩, ⟨2, "Pepper"⟩] : List Ingredient).filter
              (fun i => i.id != 1),
           recipes := [⟨1, "Soup"⟩],
           assoc := ([(1, 1), (1, 2)] : List (Int × Int)).filter
              (fun p => p.2 != 1) }, true)
    ∧ (∀ p, p ∈ ([(1, 1), (1, 2)] : List (Int × Int)) → p.2 ≠ 1 →
        p ∈ ([(1, 1), (1, 2)] : List (Int × Int)).filter (fun q => q.2 != 1))
    ∧ (∀ p, p ∈ ([(1, 1), (1, 2)] : List (Int × Int)).filter
        (fun q => q.2 != 1) → p.2 ≠ 1) :=
  C8_delete_ingredient_detaches_only
    ⟨[⟨1, "Salt"⟩, ⟨2, "Pepper"⟩], [⟨1, "Soup"⟩], [(1, 1), (1, 2)]⟩
    "IngredientType:1" (.ofIngredient ⟨1, "Salt"⟩) 1 rfl

/-- C9: when a live ingredient already bears the requested name (exact,
case-sensitive match) and the name passes the text rules, a second
createIngredient with that name fails with the uniqueness validation error;
the mutation erroring, no second record is created and the first row is
untouched. -/
theorem C9_duplicate_name_rejected (store : Store) (name : String)
    (hvalid : validate_string_field name = none)
    (hdup : store.ingredients.any (fun i => i.name == name) = true) :
    CreateIngredient_mutate store name =
      Except.error (.validation ["Ingredient with this name already exists."]) := by
  have htaken : ingredientNameTaken store none name = true := by
    unfold ingredientNameTaken
    simpa using hdup
  simp [CreateIngredient_mutate, ingredientNameErrors, hvalid, htaken]

/-- Witness for C9: creating "Salt" twice — the second attempt against the
store already holding Salt fails with the uniqueness message. -/
theorem C9_witness :
    CreateIngredient_mutate ⟨[⟨1, "Salt"⟩], [], []⟩ "Salt" =
      Except.error (.validation ["Ingredient with this name already exists."]) :=
  C9_duplicate_name_rejected ⟨[⟨1, "Salt"⟩], [], []⟩ "Salt" rfl (by decide)

end RecipeMgmt
